import Mathlib

set_option maxRecDepth 8000

/-!
Shallow embedding of the carrlink control-unit message codec (src/messages.rs),
the status data model (src/status.rs), the error taxonomy (src/error.rs) and the
set-lap command orchestration (src/control_unit.rs).

Bytes are modelled as natural numbers (callers keep them below 256); `u8`
operations are translated with explicit arithmetic: `x & 0x0F` becomes `x % 16`,
`x & 0x07` becomes `x % 8`, `x & 0x1F` becomes `x % 32`, `x >> 4` on a `u8`
becomes `x % 256 / 16`, shifts and bitwise-or that the source applies to
disjoint bit ranges are kept as `<<<` and `|||` on `Nat`.  Byte slices are
`List Nat`; `data[i]` under a length guard becomes `List.getD data i 0`, and
the slice `data[1..len-1]` becomes `(data.drop 1).dropLast`.
-/

namespace Carrlink

/-- Maximum number of controllers which can be supported (status.rs). -/
def MAX_CONTROLLER_COUNT : Nat := 8

/-- Status of the lap of a specific controller (LapStatus in status.rs).
The Rust `time` field is a `Duration` built via `Duration::from_millis`;
it is modelled here by its millisecond count. -/
structure LapStatus where
  controller : Nat
  sector : Nat
  time_millis : Nat
  deriving DecidableEq

/-- Start signal which is emitted by the track (StartSignal in status.rs). -/
inductive StartSignal where
  | none
  | five
  | four
  | three
  | two
  | one
  | go
  deriving DecidableEq

/-- Numeric value of each StartSignal variant (discriminants in status.rs). -/
def StartSignal.val : StartSignal → Nat
  | .none => 0
  | .five => 2
  | .four => 3
  | .three => 4
  | .two => 5
  | .one => 6
  | .go => 7

/-- TryFrom of u8 for StartSignal (status.rs): the match arms test the
discriminants 0, 2, 3, 4, 5, 6, 7 in order; anything else is an error,
modelled as `Option.none`. -/
def StartSignal.tryFrom (v : Nat) : Option StartSignal :=
  if v = 0 then some .none
  else if v = 2 then some .five
  else if v = 3 then some .four
  else if v = 4 then some .three
  else if v = 5 then some .two
  else if v = 6 then some .one
  else if v = 7 then some .go
  else Option.none

/-- Snapshot of the global track state (TrackStatus in status.rs).
The two fixed-size arrays of length MAX_CONTROLLER_COUNT are modelled
as lists. -/
structure TrackStatus where
  fuel_levels : List Nat
  is_refueling : List Bool
  start_signal : StartSignal
  is_fuel_enabled : Bool
  is_real_fuel_enabled : Bool
  is_pit_lane_connected : Bool
  is_lap_counter_connected : Bool
  controller_count : Nat
  deriving DecidableEq

/-- Status message returned by the control unit (Status in status.rs). -/
inductive Status where
  | Lap (s : LapStatus)
  | Track (s : TrackStatus)
  deriving DecidableEq

/-- Error taxonomy (error.rs).  `Other` wraps a boxed dynamic error used only
for diagnostics; the opaque payload is dropped in the model. -/
inductive Error where
  | PermissionDenied
  | DeviceNotFound
  | NotConnected
  | NotSupported (detail : String)
  | TimedOut
  | RuntimeError (detail : String)
  | InvalidResponse
  | NoResponse
  | Other
  deriving DecidableEq

/-- MIN_CHECKSUM_MESSAGE_LEN in messages.rs. -/
def MIN_CHECKSUM_MESSAGE_LEN : Nat := 2

/-- Computes the checksum of the given slice of data (messages.rs):
the byte sum masked with 0x0F.  The Rust sum is u32; since 16 divides 2 to
the 32, wrapping of the u32 sum never changes the low nibble, so the plain
natural-number sum modulo 16 is an exact model. -/
def compute_checksum (data : List Nat) : Nat :=
  data.sum % 16

/-- Verifies if the given data slice has a valid checksum (messages.rs):
length at least 2, and the low nibble of the last byte equals
compute_checksum of data[1..len-1]. -/
def check_checksum (data : List Nat) : Bool :=
  if data.length < MIN_CHECKSUM_MESSAGE_LEN then
    false
  else
    let expected := compute_checksum ((data.drop 1).dropLast)
    let actual := (data.getLast?.getD 0) % 16
    actual == expected

/-- UINT32_SIZE in messages.rs. -/
def UINT32_SIZE : Nat := 8

/-- Reconstructs a 32-bit value from 8 nibble bytes (decode_uint32 in
messages.rs), keeping the exact shift-and-or structure of the source;
each `data[i] & 0x0F` becomes `data.getD i 0 % 16`. -/
def decode_uint32 (data : List Nat) : Nat :=
  ((data.getD 0 0 % 16) <<< 24)
    ||| ((data.getD 1 0 % 16) <<< 28)
    ||| ((data.getD 2 0 % 16) <<< 16)
    ||| ((data.getD 3 0 % 16) <<< 20)
    ||| ((data.getD 4 0 % 16) <<< 8)
    ||| ((data.getD 5 0 % 16) <<< 12)
    ||| (data.getD 6 0 % 16)
    ||| ((data.getD 7 0 % 16) <<< 4)

/-- VALUE_BASE in messages.rs: the ASCII digit zero. -/
def VALUE_BASE : Nat := 48

/-- Encodes the lower nibble of the given value (encode_nibble in
messages.rs): VALUE_BASE + (value & 0x0F).  The u8 addition cannot wrap
(the result is at most 63). -/
def encode_nibble (value : Nat) : Nat :=
  VALUE_BASE + value % 16

/-- Encodes the address of the player for writing a word
(encode_player_address in messages.rs):
((player & 0x07) << 5) | (address_offset & 0x1F). -/
def encode_player_address (address_offset player : Nat) : Nat :=
  ((player % 8) <<< 5) ||| (address_offset % 32)

/-- Decodes a track status frame (decode_track_status in messages.rs).
Offsets: fuel levels at 2..10, start signal at 10, track mode at 11,
refuel mask at 12, controller count at 14, checksum at 15; accepted
lengths are 16 (short) and 18 (long).  The marker test keeps the
source's conjunction: the frame is rejected only when data[0] is not
the marker AND data[1] is not the separator. -/
def decode_track_status (data : List Nat) : Option TrackStatus :=
  if data.length ≠ 16 ∧ data.length ≠ 18 then
    Option.none
  else if data.getD 0 0 ≠ 63 ∧ data.getD 1 0 ≠ 58 then
    Option.none
  else if ¬ check_checksum data then
    Option.none
  else
    match StartSignal.tryFrom (data.getD 10 0 % 16) with
    | Option.none => Option.none
    | some start_signal =>
      let track_mode := data.getD 11 0
      let refuel_mask := (data.getD 12 0 % 16) ||| ((data.getD 12 0 % 16) <<< 4)
      some
        { fuel_levels := ((data.drop 2).take MAX_CONTROLLER_COUNT).map (fun v => v % 16)
          is_refueling := (List.range MAX_CONTROLLER_COUNT).map
            (fun i => refuel_mask &&& (1 <<< i) != 0)
          start_signal := start_signal
          is_fuel_enabled := track_mode % 2 != 0
          is_real_fuel_enabled := (track_mode &&& 2) != 0
          is_pit_lane_connected := track_mode % 2 != 0
          is_lap_counter_connected := (track_mode &&& 2) != 0
          controller_count := data.getD 14 0 % 16 }

/-- Decodes a lap status frame (decode_lap_status in messages.rs).
Offsets: controller at 1, time at 2..10, sector at 10, checksum at 11;
the accepted length is 12.  The controller field is computed in the
source as `(data[1] & 0x0F) - 1` on u8, which underflows when the low
nibble is 0: with overflow checks enabled the Rust program panics, and
in release mode the subtraction wraps; the wrapping (release) result
`(nibble + 255) % 256` is what is modelled here. -/
def decode_lap_status (data : List Nat) : Option LapStatus :=
  if data.length ≠ 12 then
    Option.none
  else if data.getD 0 0 ≠ 63 then
    Option.none
  else if ¬ check_checksum data then
    Option.none
  else
    some
      { controller := (data.getD 1 0 % 16 + 255) % 256
        sector := data.getD 10 0 % 16
        time_millis := decode_uint32 ((data.drop 2).take UINT32_SIZE) }

/-- Decodes a status frame (decode_status in messages.rs): track status
first, then lap status, else no value. -/
def decode_status (data : List Nat) : Option Status :=
  match decode_track_status data with
  | some status => some (Status.Track status)
  | Option.none =>
    match decode_lap_status data with
    | some status => some (Status.Lap status)
    | Option.none => Option.none

/-- Decodes a version frame (decode_version in messages.rs): length 6,
marker ASCII digit zero, valid checksum; the result String is modelled
as the list of its character codes data[1..5]. -/
def decode_version (data : List Nat) : Option (List Nat) :=
  if data.length ≠ 6 then
    Option.none
  else if data.getD 0 0 ≠ 48 then
    Option.none
  else if ¬ check_checksum data then
    Option.none
  else
    some ((data.drop 1).dropLast)

/-- Acknowledgement check for write-only commands (decode_empty in
messages.rs): both slices non-empty and their first bytes equal. -/
def decode_empty (data_in data_out : List Nat) : Option Unit :=
  if data_out.length > 0 ∧ data_in.length > 0 ∧ data_out.getD 0 0 = data_in.getD 0 0 then
    some ()
  else
    Option.none

/-- Builds a button press request (make_button_press_request in
messages.rs): marker is ASCII T (84); the trailing byte is
compute_checksum of the two bytes before it, marker included. -/
def make_button_press_request (button : Nat) : List Nat :=
  let body := [84, encode_nibble button]
  body ++ [compute_checksum body]

/-- Builds a set-word request (make_set_word_request in messages.rs):
marker is ASCII J (74), then the address split as low nibble and high
nibble of a u8, the nibble-encoded value and repetitions, and the
checksum of the five bytes before it, marker included. -/
def make_set_word_request (address value repetitions : Nat) : List Nat :=
  let body := [74, address % 256 % 16, address % 256 / 16,
    encode_nibble value, encode_nibble repetitions]
  body ++ [compute_checksum body]

/-- Reset-positions request (make_reset_positions_request in messages.rs). -/
def make_reset_positions_request : List Nat :=
  make_set_word_request 6 9 1

/-- Reset-clock request (make_reset_clock_request in messages.rs): marker
is ASCII equals sign (61), then nibble-encoded 1 and 0, and the checksum
of the three bytes before it, marker included. -/
def make_reset_clock_request : List Nat :=
  let body := [61, encode_nibble 1, encode_nibble 0]
  body ++ [compute_checksum body]

/-- Set-speed-level request (make_set_speed_level_request in messages.rs):
address offset 0, repetitions 2. -/
def make_set_speed_level_request (player value : Nat) : List Nat :=
  make_set_word_request (encode_player_address 0 player) value 2

/-- Set-brake-level request (make_set_brake_level_request in messages.rs):
address offset 1, repetitions 2. -/
def make_set_brake_level_request (player value : Nat) : List Nat :=
  make_set_word_request (encode_player_address 1 player) value 2

/-- Set-fuel-level request (make_set_fuel_level_request in messages.rs):
address offset 2, repetitions 2. -/
def make_set_fuel_level_request (player value : Nat) : List Nat :=
  make_set_word_request (encode_player_address 2 player) value 2

/-- Set-lap-low request (make_set_lap_low_request in messages.rs):
fixed word address 0xF2, repetitions 1. -/
def make_set_lap_low_request (value : Nat) : List Nat :=
  make_set_word_request 242 value 1

/-- Set-lap-high request (make_set_lap_high_request in messages.rs):
fixed word address 0xF1, repetitions 1. -/
def make_set_lap_high_request (value : Nat) : List Nat :=
  make_set_word_request 241 value 1

/-- A transport backend (the Backend trait of backend.rs) restricted to
its request operation: maps a request frame to either a response frame
or a transport error.  The timeout argument of the Rust trait only
bounds the wall-clock wait and never influences which response value a
given oracle returns, so it is dropped from the model. -/
def BackendModel : Type :=
  List Nat → Except Error (List Nat)

/-- Maps a decoder result to the orchestrator error taxonomy
(decode_result_to_error in control_unit.rs). -/
def decode_result_to_error {T : Type} (result : Option T) : Except Error T :=
  match result with
  | some value => Except.ok value
  | Option.none => Except.error Error.InvalidResponse

/-- One request/response exchange of the orchestrator (the body shared by
every operation of control_unit.rs): issue the request over the backend,
propagate a transport error, otherwise run decode_empty on the echoed
response.  The first component of the result records the requests issued
so far, in order. -/
def run_empty_exchange (backend : BackendModel) (log : List (List Nat))
    (request : List Nat) : List (List Nat) × Except Error Unit :=
  match backend request with
  | Except.error e => (log ++ [request], Except.error e)
  | Except.ok response => (log ++ [request], decode_result_to_error (decode_empty request response))

/-- set_lap_high of control_unit.rs: a set-lap-high exchange carrying the
high nibble of the lap number, `(lap as u8) >> 4`. -/
def set_lap_high_run (backend : BackendModel) (log : List (List Nat))
    (lap : Nat) : List (List Nat) × Except Error Unit :=
  run_empty_exchange backend log (make_set_lap_high_request (lap % 256 / 16))

/-- set_lap_low of control_unit.rs: a set-lap-low exchange carrying the
low nibble of the lap number, `(lap as u8) & 0x0F`. -/
def set_lap_low_run (backend : BackendModel) (log : List (List Nat))
    (lap : Nat) : List (List Nat) × Except Error Unit :=
  run_empty_exchange backend log (make_set_lap_low_request (lap % 256 % 16))

/-- set_lap of control_unit.rs: the high-nibble exchange, then on success
the low-nibble exchange, then Ok; each failing step propagates its error
immediately. -/
def set_lap_run (backend : BackendModel) (log : List (List Nat))
    (lap : Nat) : List (List Nat) × Except Error Unit :=
  match set_lap_high_run backend log lap with
  | (log2, Except.error e) => (log2, Except.error e)
  | (log2, Except.ok _) =>
    match set_lap_low_run backend log2 lap with
    | (log3, Except.error e) => (log3, Except.error e)
    | (log3, Except.ok _) => (log3, Except.ok ())

/-! Helper lemmas about bitwise-or of values with disjoint bit ranges, list
indexing through drop and take, and the checksum predicate. -/

/-- Bitwise-or acts as addition when the right operand lies below all the
bits of the left operand. -/
theorem lor_mul_pow_eq_add : ∀ k a b : Nat, b < 2 ^ k → a * 2 ^ k ||| b = a * 2 ^ k + b := by
  intro k
  induction k with
  | zero =>
    intro a b hb
    have hb0 : b = 0 := by omega
    subst hb0
    simp
  | succ k ih =>
    intro a b hb
    have hpow : 2 ^ (k + 1) = 2 ^ k * 2 := by ring
    rw [hpow] at hb
    have hih := ih a (b / 2) (by omega)
    have hx2 : a * 2 ^ (k + 1) = 2 * (a * 2 ^ k) := by ring
    have hY2 : a * 2 ^ (k + 1) / 2 = a * 2 ^ k := by
      rw [hx2]
      omega
    have hor2 : (a * 2 ^ (k + 1) ||| b) / 2 = a * 2 ^ (k + 1) / 2 ||| b / 2 :=
      Nat.or_div_two
    rw [hY2, hih] at hor2
    have hmod : (a * 2 ^ (k + 1) ||| b) % 2 = 1 ↔ a * 2 ^ (k + 1) % 2 = 1 ∨ b % 2 = 1 :=
      Nat.or_mod_two_eq_one
    have hdm := Nat.div_add_mod (a * 2 ^ (k + 1) ||| b) 2
    omega

/-- The value reconstructed by the decode_uint32 bit expression, as the
sum of its eight 4-bit fields. -/
theorem uint32_core (n0 n1 n2 n3 n4 n5 n6 n7 : Nat)
    (h0 : n0 < 16) (_h1 : n1 < 16) (h2 : n2 < 16) (h3 : n3 < 16)
    (h4 : n4 < 16) (h5 : n5 < 16) (h6 : n6 < 16) (h7 : n7 < 16) :
    (n0 <<< 24) ||| (n1 <<< 28) ||| (n2 <<< 16) ||| (n3 <<< 20)
      ||| (n4 <<< 8) ||| (n5 <<< 12) ||| n6 ||| (n7 <<< 4)
    = n6 + n7 * 2 ^ 4 + n4 * 2 ^ 8 + n5 * 2 ^ 12 + n2 * 2 ^ 16 + n3 * 2 ^ 20
      + n0 * 2 ^ 24 + n1 * 2 ^ 28 := by
  rw [Nat.shiftLeft_eq, Nat.shiftLeft_eq, Nat.shiftLeft_eq, Nat.shiftLeft_eq,
    Nat.shiftLeft_eq, Nat.shiftLeft_eq, Nat.shiftLeft_eq]
  have e01 : n0 * 2 ^ 24 ||| n1 * 2 ^ 28 = n1 * 2 ^ 28 + n0 * 2 ^ 24 := by
    rw [Nat.or_comm]
    exact lor_mul_pow_eq_add 28 n1 (n0 * 2 ^ 24) (by omega)
  have e23 : n2 * 2 ^ 16 ||| n3 * 2 ^ 20 = n3 * 2 ^ 20 + n2 * 2 ^ 16 := by
    rw [Nat.or_comm]
    exact lor_mul_pow_eq_add 20 n3 (n2 * 2 ^ 16) (by omega)
  have e45 : n4 * 2 ^ 8 ||| n5 * 2 ^ 12 = n5 * 2 ^ 12 + n4 * 2 ^ 8 := by
    rw [Nat.or_comm]
    exact lor_mul_pow_eq_add 12 n5 (n4 * 2 ^ 8) (by omega)
  have e67 : n6 ||| n7 * 2 ^ 4 = n7 * 2 ^ 4 + n6 := by
    rw [Nat.or_comm]
    exact lor_mul_pow_eq_add 4 n7 n6 (by omega)
  rw [e01, Nat.or_assoc (n1 * 2 ^ 28 + n0 * 2 ^ 24) (n2 * 2 ^ 16) (n3 * 2 ^ 20), e23]
  have e0123 : n1 * 2 ^ 28 + n0 * 2 ^ 24 ||| (n3 * 2 ^ 20 + n2 * 2 ^ 16)
      = n1 * 2 ^ 28 + n0 * 2 ^ 24 + (n3 * 2 ^ 20 + n2 * 2 ^ 16) := by
    have hs1 : n1 * 2 ^ 28 + n0 * 2 ^ 24 = (n1 * 2 ^ 4 + n0) * 2 ^ 24 := by ring
    rw [hs1]
    exact lor_mul_pow_eq_add 24 (n1 * 2 ^ 4 + n0) (n3 * 2 ^ 20 + n2 * 2 ^ 16) (by omega)
  rw [e0123, Nat.or_assoc (n1 * 2 ^ 28 + n0 * 2 ^ 24 + (n3 * 2 ^ 20 + n2 * 2 ^ 16))
    (n4 * 2 ^ 8) (n5 * 2 ^ 12), e45]
  have e012345 : n1 * 2 ^ 28 + n0 * 2 ^ 24 + (n3 * 2 ^ 20 + n2 * 2 ^ 16)
      ||| (n5 * 2 ^ 12 + n4 * 2 ^ 8)
      = n1 * 2 ^ 28 + n0 * 2 ^ 24 + (n3 * 2 ^ 20 + n2 * 2 ^ 16)
        + (n5 * 2 ^ 12 + n4 * 2 ^ 8) := by
    have hs2 : n1 * 2 ^ 28 + n0 * 2 ^ 24 + (n3 * 2 ^ 20 + n2 * 2 ^ 16)
        = (n1 * 2 ^ 12 + n0 * 2 ^ 8 + n3 * 2 ^ 4 + n2) * 2 ^ 16 := by ring
    rw [hs2]
    exact lor_mul_pow_eq_add 16 (n1 * 2 ^ 12 + n0 * 2 ^ 8 + n3 * 2 ^ 4 + n2)
      (n5 * 2 ^ 12 + n4 * 2 ^ 8) (by omega)
  rw [e012345, Nat.or_assoc (n1 * 2 ^ 28 + n0 * 2 ^ 24 + (n3 * 2 ^ 20 + n2 * 2 ^ 16)
    + (n5 * 2 ^ 12 + n4 * 2 ^ 8)) n6 (n7 * 2 ^ 4), e67]
  have efin : n1 * 2 ^ 28 + n0 * 2 ^ 24 + (n3 * 2 ^ 20 + n2 * 2 ^ 16)
      + (n5 * 2 ^ 12 + n4 * 2 ^ 8) ||| (n7 * 2 ^ 4 + n6)
      = n1 * 2 ^ 28 + n0 * 2 ^ 24 + (n3 * 2 ^ 20 + n2 * 2 ^ 16)
        + (n5 * 2 ^ 12 + n4 * 2 ^ 8) + (n7 * 2 ^ 4 + n6) := by
    have hs3 : n1 * 2 ^ 28 + n0 * 2 ^ 24 + (n3 * 2 ^ 20 + n2 * 2 ^ 16)
        + (n5 * 2 ^ 12 + n4 * 2 ^ 8)
        = (n1 * 2 ^ 20 + n0 * 2 ^ 16 + n3 * 2 ^ 12 + n2 * 2 ^ 8
          + n5 * 2 ^ 4 + n4) * 2 ^ 8 := by ring
    rw [hs3]
    exact lor_mul_pow_eq_add 8 (n1 * 2 ^ 20 + n0 * 2 ^ 16 + n3 * 2 ^ 12 + n2 * 2 ^ 8
      + n5 * 2 ^ 4 + n4) (n7 * 2 ^ 4 + n6) (by omega)
  rw [efin]
  ring

/-- Indexing with a default through List.drop. -/
theorem getD_drop : ∀ (l : List Nat) (n i : Nat), (l.drop n).getD i 0 = l.getD (n + i) 0 := by
  intro l
  induction l with
  | nil => intro n i; simp
  | cons h t ih =>
    intro n i
    cases n with
    | zero => simp
    | succ m =>
      rw [List.drop_succ_cons, ih m i]
      have hmi : m + 1 + i = m + i + 1 := by omega
      rw [hmi, List.getD_cons_succ]

/-- Indexing with a default through List.take, below the cut. -/
theorem getD_take_lt (l : List Nat) (n i : Nat) (h : i < n) :
    (l.take n).getD i 0 = l.getD i 0 := by
  simp [List.getD_eq_getElem?_getD, List.getElem?_take_of_lt h]

/-- The decode_uint32 value of any byte list, as the sum of the low
nibbles of its first eight entries weighted 4 bits apart. -/
theorem decode_uint32_eq_nibbles (data : List Nat) :
    decode_uint32 data
      = data.getD 6 0 % 16 + data.getD 7 0 % 16 * 2 ^ 4 + data.getD 4 0 % 16 * 2 ^ 8
        + data.getD 5 0 % 16 * 2 ^ 12 + data.getD 2 0 % 16 * 2 ^ 16
        + data.getD 3 0 % 16 * 2 ^ 20 + data.getD 0 0 % 16 * 2 ^ 24
        + data.getD 1 0 % 16 * 2 ^ 28 := by
  unfold decode_uint32
  exact uint32_core _ _ _ _ _ _ _ _
    (Nat.mod_lt _ (by omega)) (Nat.mod_lt _ (by omega)) (Nat.mod_lt _ (by omega))
    (Nat.mod_lt _ (by omega)) (Nat.mod_lt _ (by omega)) (Nat.mod_lt _ (by omega))
    (Nat.mod_lt _ (by omega)) (Nat.mod_lt _ (by omega))

/-- Characterization of check_checksum: length at least 2 and the low
nibble of the last byte equals the byte sum of data[1..len-1] modulo 16. -/
theorem check_checksum_iff (frame : List Nat) :
    check_checksum frame = true ↔
      2 ≤ frame.length ∧
        frame.getLast?.getD 0 % 16 = ((frame.drop 1).dropLast).sum % 16 := by
  unfold check_checksum MIN_CHECKSUM_MESSAGE_LEN
  split
  · next hlen =>
    constructor
    · intro h
      exact absurd h (by simp)
    · intro h
      exact absurd h.1 (by omega)
  · next hlen =>
    simp only [compute_checksum, beq_iff_eq]
    constructor
    · intro h
      exact ⟨by omega, h⟩
    · intro h
      exact h.2

/-- Replacing one element changes a byte-list sum by the difference of the
new and old entries, phrased additively. -/
theorem sum_set_add : ∀ (l : List Nat) (i v : Nat), i < l.length →
    (l.set i v).sum + l.getD i 0 = l.sum + v := by
  intro l
  induction l with
  | nil =>
    intro i v h
    simp at h
  | cons h t ih =>
    intro i v hi
    cases i with
    | zero =>
      simp
      omega
    | succ j =>
      have hj := ih j v (by simp at hi; omega)
      simp [List.getD_eq_getElem?_getD] at hj
      simp
      omega

/-- List.set commutes with List.dropLast. -/
theorem dropLast_set (l : List Nat) (i : Nat) (v : Nat) :
    (l.set i v).dropLast = l.dropLast.set i v := by
  rw [List.dropLast_eq_take, List.dropLast_eq_take, List.length_set, List.set_take]

/-- Setting a strictly interior element leaves the last element alone. -/
theorem getLast?_set (l : List Nat) (i : Nat) (v : Nat) (h : i + 1 < l.length) :
    (l.set i v).getLast? = l.getLast? := by
  rw [List.getLast?_eq_getElem?, List.getLast?_eq_getElem?, List.length_set,
    List.getElem?_set_ne (by omega)]

/-- Indexing with a default through List.dropLast, below the cut. -/
theorem getD_dropLast_lt (l : List Nat) (j : Nat) (h : j < l.length - 1) :
    l.dropLast.getD j 0 = l.getD j 0 := by
  simp only [List.getD_eq_getElem?_getD]
  rw [List.getElem?_dropLast, if_pos h]

/-- C5: check_checksum holds iff the frame has length at least 2 and the low
nibble of its last byte equals the sum modulo 16 of the bytes of
frame[1..len-1], i.e. compute_checksum of the interior: the leading marker
byte and the trailing checksum byte are excluded from the sum and only the
low nibble of the last byte is compared. -/
theorem C5_check_checksum_characterization (frame : List Nat) :
    check_checksum frame = true ↔
      2 ≤ frame.length ∧
        frame.getLast?.getD 0 % 16
          = compute_checksum ((frame.drop 1).take (frame.length - 2)) := by
  rw [check_checksum_iff]
  have ht : (frame.drop 1).dropLast = (frame.drop 1).take (frame.length - 2) := by
    rw [List.dropLast_eq_take, List.length_drop]
    congr 1
  rw [ht]
  simp [compute_checksum]

/-- C4 counterexample: the frame [0, 0, 0] is checksum-valid, and replacing its
interior payload byte 0 by the different byte value 16 keeps check_checksum
true, because the 4-bit checksum only sees byte sums modulo 16. -/
theorem C4_counterexample :
    check_checksum [0, 0, 0] = true ∧
      check_checksum (List.set [0, 0, 0] 1 16) = true ∧ (16 : Nat) ≠ (0 : Nat) := by
  decide

/-- C4 amended: for every checksum-valid frame, replacing any single interior
payload byte F[i] (1 at most i at most len-2) by a byte value with a different
residue modulo 16 makes check_checksum false; replacements that keep the
residue modulo 16 (such as 0x00 to 0x10) keep the frame valid, so the claim
restricted to arbitrary different byte values is false. -/
theorem C4_single_byte_mutation (F : List Nat) (i v : Nat)
    (hok : check_checksum F = true) (hlo : 1 ≤ i) (hhi : i + 2 ≤ F.length)
    (hv : v % 16 ≠ F.getD i 0 % 16) :
    check_checksum (F.set i v) = false := by
  rcases (check_checksum_iff F).mp hok with ⟨hlen, hsum⟩
  cases hq : check_checksum (F.set i v) with
  | false => rfl
  | true =>
    exfalso
    rcases (check_checksum_iff (F.set i v)).mp hq with ⟨hlen2, hsum2⟩
    have hdrop : (F.set i v).drop 1 = (F.drop 1).set (i - 1) v := by
      rw [List.drop_set, if_neg (by omega)]
    have hinterior : ((F.set i v).drop 1).dropLast
        = ((F.drop 1).dropLast).set (i - 1) v := by
      rw [hdrop, dropLast_set]
    have hlast : (F.set i v).getLast? = F.getLast? := getLast?_set F i v (by omega)
    have hilen : ((F.drop 1).dropLast).length = F.length - 2 := by
      simp [List.length_dropLast, List.length_drop]
      omega
    have hgd : ((F.drop 1).dropLast).getD (i - 1) 0 = F.getD i 0 := by
      rw [getD_dropLast_lt _ _ (by simp [List.length_drop]; omega), getD_drop]
      congr 1
      omega
    have hss := sum_set_add ((F.drop 1).dropLast) (i - 1) v (by omega)
    rw [hlast, hinterior] at hsum2
    rw [hgd] at hss
    omega

/-- C4 witness: replacing the interior byte of the valid frame [0, 0, 0] by 5,
whose residue modulo 16 differs, breaks the checksum. -/
theorem C4_witness : check_checksum (List.set [0, 0, 0] 1 5) = false :=
  C4_single_byte_mutation [0, 0, 0] 1 5 (by decide) (by decide) (by decide) (by decide)

/-- C1: the 12-byte frame [63, 16, 0, ..., 0] passes the marker and checksum
checks of decode_lap_status while its controller nibble (low nibble of
byte 1) is 0, so the u8 computation (data[1] & 0x0F) - 1 underflows: the
wrapping result is controller index 255 rather than a well-defined 0-based
index, and with overflow checks enabled the Rust subtraction panics instead
of returning a value. -/
theorem C1_controller_nibble_zero_underflow :
    check_checksum [63, 16, 0, 0, 0, 0, 0, 0, 0, 0, 0, 0] = true
      ∧ List.getD [63, 16, 0, 0, 0, 0, 0, 0, 0, 0, 0, 0] 1 0 % 16 = 0
      ∧ decode_lap_status [63, 16, 0, 0, 0, 0, 0, 0, 0, 0, 0, 0]
        = some { controller := 255, sector := 0, time_millis := 0 } := by
  decide

/-- C3: decode_track_status accepts a 16-byte frame whose byte 1 is not the
separator, as long as byte 0 is the status marker, because the source
rejects only when the marker AND the separator both mismatch; the claim
that a separator mismatch alone forces a no-value result is false on the
code. -/
theorem C3_separator_not_enforced :
    List.getD [63, 48, 0, 0, 0, 0, 0, 0, 0, 0, 0, 0, 0, 0, 0, 0] 1 0 ≠ 58
      ∧ (decode_track_status [63, 48, 0, 0, 0, 0, 0, 0, 0, 0, 0, 0, 0, 0, 0, 0]).isSome
        = true := by
  decide

/-- C2 counterexample: the button-press frame for button 2 is [84, 50, 6]; its
trailing checksum byte 6 differs from the value-base plus masked sum of the
payload bytes with the marker excluded (which would be 48 + 2 = 50), and the
frame is not valid under check_checksum, because the construction sums the
marker byte as well and adds no base. -/
theorem C2_counterexample :
    make_button_press_request 2 = [84, 50, 6]
      ∧ List.getD (make_button_press_request 2) 2 0
        ≠ VALUE_BASE + List.getD (make_button_press_request 2) 1 0 % 16
      ∧ check_checksum (make_button_press_request 2) = false := by
  decide

/-- C2 amended: for every command frame the codec constructs with a trailing
checksum (button press, generic set word covering reset-positions,
set-speed/brake/fuel and set-lap low/high, and reset clock), the trailing
byte equals compute_checksum of all bytes preceding it INCLUDING the leading
marker byte, with no value-base offset added; consequently such frames are
not in general valid under check_checksum, which excludes the marker from
its sum. -/
theorem C2_trailing_checksum (button address value repetitions player lap : Nat) :
    (make_button_press_request button).getD 2 0 = (84 + encode_nibble button) % 16
      ∧ (make_set_word_request address value repetitions).getD 5 0
        = (74 + address % 256 % 16 + address % 256 / 16 + encode_nibble value
            + encode_nibble repetitions) % 16
      ∧ make_reset_clock_request.getD 3 0 = (61 + encode_nibble 1 + encode_nibble 0) % 16
      ∧ make_reset_positions_request = make_set_word_request 6 9 1
      ∧ make_set_speed_level_request player value
        = make_set_word_request (encode_player_address 0 player) value 2
      ∧ make_set_brake_level_request player value
        = make_set_word_request (encode_player_address 1 player) value 2
      ∧ make_set_fuel_level_request player value
        = make_set_word_request (encode_player_address 2 player) value 2
      ∧ make_set_lap_low_request lap = make_set_word_request 242 lap 1
      ∧ make_set_lap_high_request lap = make_set_word_request 241 lap 1 := by
  refine ⟨?_, ?_, by decide, rfl, rfl, rfl, rfl, rfl, rfl⟩
  · simp [make_button_press_request, compute_checksum]
  · simp [make_set_word_request, compute_checksum]
    omega

/-- C7: for every input, decode_status is the track decode wrapped in the
Track variant when it succeeds, otherwise the lap decode wrapped in the Lap
variant when that succeeds, otherwise no value; the produced variant is a
function of the input bytes alone. -/
theorem C7_decode_status_order (data : List Nat) :
    decode_status data
      = Option.orElse ((decode_track_status data).map Status.Track)
          (fun _ => (decode_lap_status data).map Status.Lap) := by
  unfold decode_status
  cases decode_track_status data with
  | none =>
    cases decode_lap_status data with
    | none => rfl
    | some ls => rfl
  | some ts => rfl

/-- Spec-side value of the lap-time field of a 12-byte lap frame: the 32-bit
count whose nibbles from least to most significant (4 bits each) come from
the low nibbles of the bytes at positions 6, 7, 4, 5, 2, 3, 0, 1 relative to
the time-field start at absolute byte 2. -/
def timeNibbleValue (data : List Nat) : Nat :=
  data.getD 8 0 % 16 + data.getD 9 0 % 16 * 2 ^ 4 + data.getD 6 0 % 16 * 2 ^ 8
    + data.getD 7 0 % 16 * 2 ^ 12 + data.getD 4 0 % 16 * 2 ^ 16
    + data.getD 5 0 % 16 * 2 ^ 20 + data.getD 2 0 % 16 * 2 ^ 24
    + data.getD 3 0 % 16 * 2 ^ 28

/-- C6: every 12-byte lap frame accepted by decode_lap_status decodes its time
as timeNibbleValue milliseconds: nibbles low to high are read from relative
byte positions 6, 7, 4, 5, 2, 3, 0, 1 of the time field, i.e. each pair of
adjacent wire bytes is swapped before being read most significant first. -/
theorem C6_lap_time_nibble_order (data : List Nat) (ls : LapStatus)
    (h : decode_lap_status data = some ls) :
    ls.time_millis = timeNibbleValue data := by
  have hget : ∀ i : Nat, i < 8 → ((data.drop 2).take 8).getD i 0 = data.getD (2 + i) 0 := by
    intro i hi
    rw [getD_take_lt _ _ _ hi, getD_drop]
  unfold decode_lap_status at h
  split at h
  · exact absurd h (by simp)
  · split at h
    · exact absurd h (by simp)
    · split at h
      · exact absurd h (by simp)
      · injection h with h2
        rw [← h2]
        simp only [UINT32_SIZE]
        rw [decode_uint32_eq_nibbles]
        rw [hget 0 (by omega), hget 1 (by omega), hget 2 (by omega), hget 3 (by omega),
          hget 4 (by omega), hget 5 (by omega), hget 6 (by omega), hget 7 (by omega)]
        unfold timeNibbleValue
        norm_num

/-- C6 witness: a concrete accepted lap frame with time bytes 1..8, whose
decoded millisecond count matches the nibble reconstruction. -/
theorem C6_witness :
    (LapStatus.mk 0 0 558065031).time_millis
      = timeNibbleValue [63, 49, 1, 2, 3, 4, 5, 6, 7, 8, 48, 5] :=
  C6_lap_time_nibble_order [63, 49, 1, 2, 3, 4, 5, 6, 7, 8, 48, 5]
    (LapStatus.mk 0 0 558065031) (by decide)

/-- The packed player/offset address byte, arithmetically. -/
theorem encode_player_address_eq (address_offset player : Nat) :
    encode_player_address address_offset player
      = player % 8 * 32 + address_offset % 32 := by
  unfold encode_player_address
  rw [Nat.shiftLeft_eq]
  rw [lor_mul_pow_eq_add 5 (player % 8) (address_offset % 32) (by omega)]
  norm_num

/-- C9: encode_player_address packs the 3-bit player index into bits 7 to 5
and the 5-bit offset into bits 4 to 0, equalling player % 8 * 32 plus
offset % 32; for the three set-level offsets 0 (speed), 1 (brake) and
2 (fuel) the produced address spaces are pairwise disjoint over all player
indices 0..7. -/
theorem C9_player_address_packing :
    (∀ address_offset player : Nat,
        encode_player_address address_offset player
          = player % 8 * 32 + address_offset % 32)
      ∧ ∀ p q : Nat, p ≤ 7 → q ≤ 7 →
          encode_player_address 0 p ≠ encode_player_address 1 q
            ∧ encode_player_address 0 p ≠ encode_player_address 2 q
            ∧ encode_player_address 1 p ≠ encode_player_address 2 q := by
  constructor
  · exact encode_player_address_eq
  · intro p q hp hq
    simp only [encode_player_address_eq]
    refine ⟨?_, ?_, ?_⟩ <;> omega

/-- C9 witness: boundary players 0 and 7 with distinct offsets produce
distinct addresses. -/
theorem C9_witness :
    encode_player_address 0 0 ≠ encode_player_address 1 7
      ∧ encode_player_address 0 0 ≠ encode_player_address 2 7
      ∧ encode_player_address 1 0 ≠ encode_player_address 2 7 :=
  C9_player_address_packing.2 0 7 (by decide) (by decide)

/-- C10 counterexample: the 18-byte frame below is accepted by
decode_track_status, so track decoding does not accept only lengths 14 and
16 as claimed; the code accepts lengths 16 and 18. -/
theorem C10_counterexample :
    (decode_track_status
        [63, 58, 0, 0, 0, 0, 0, 0, 0, 0, 0, 0, 0, 0, 0, 0, 0, 10]).isSome = true
      ∧ ([63, 58, 0, 0, 0, 0, 0, 0, 0, 0, 0, 0, 0, 0, 0, 0, 0, 10] : List Nat).length
          = 18
      ∧ ¬ (([63, 58, 0, 0, 0, 0, 0, 0, 0, 0, 0, 0, 0, 0, 0, 0, 0, 10] : List Nat).length
            = 14
          ∨ ([63, 58, 0, 0, 0, 0, 0, 0, 0, 0, 0, 0, 0, 0, 0, 0, 0, 10] : List Nat).length
            = 16) := by
  decide

/-- C10 amended: for every input byte sequence, at most one of
decode_track_status and decode_lap_status returns a value: track decoding
accepts only lengths 16 and 18 (not 14 and 16) while lap decoding accepts
only length 12, so the accepted input sets are disjoint and the track-first
ordering inside decode_status can never mask an input lap decoding would
accept. -/
theorem C10_decoders_disjoint (data : List Nat) :
    ((decode_track_status data).isSome && (decode_lap_status data).isSome) = false
      ∧ (decode_track_status data = Option.none ∨ data.length = 16 ∨ data.length = 18)
      ∧ (decode_lap_status data = Option.none ∨ data.length = 12) := by
  have htrack : decode_track_status data = Option.none
      ∨ data.length = 16 ∨ data.length = 18 := by
    by_cases h : data.length = 16 ∨ data.length = 18
    · right
      exact h
    · left
      unfold decode_track_status
      rw [if_pos (by omega)]
  have hlap : decode_lap_status data = Option.none ∨ data.length = 12 := by
    by_cases h : data.length = 12
    · right
      exact h
    · left
      unfold decode_lap_status
      rw [if_pos h]
  refine ⟨?_, htrack, hlap⟩
  cases ht : decode_track_status data with
  | none => simp
  | some ts =>
    cases hl : decode_lap_status data with
    | none => simp
    | some ls =>
      exfalso
      rw [ht] at htrack
      rw [hl] at hlap
      rcases htrack with h | h | h
      · exact Option.noConfusion h
      all_goals rcases hlap with h2 | h2
      · exact Option.noConfusion h2
      · omega
      · exact Option.noConfusion h2
      · omega

/-- C8: set_lap issues the set-lap-high exchange first (set-word address 0xF1,
value the high nibble of the lap); if that exchange fails, its error is the
overall result and the set-lap-low exchange is never issued; if it succeeds,
exactly the two requests high then low (set-word address 0xF2, value the low
nibble) are issued, and set_lap succeeds exactly when the low exchange also
succeeds. -/
theorem C8_set_lap_two_exchanges (backend : BackendModel) (lap : Nat) :
    set_lap_run backend [] lap
      = match (set_lap_high_run backend [] lap).2 with
        | Except.error e =>
          ([make_set_lap_high_request (lap % 256 / 16)], Except.error e)
        | Except.ok _ =>
          ([make_set_lap_high_request (lap % 256 / 16),
              make_set_lap_low_request (lap % 256 % 16)],
            match (set_lap_low_run backend
                [make_set_lap_high_request (lap % 256 / 16)] lap).2 with
              | Except.error e => Except.error e
              | Except.ok _ => Except.ok ()) := by
  unfold set_lap_run set_lap_high_run set_lap_low_run run_empty_exchange
    decode_result_to_error
  cases backend (make_set_lap_high_request (lap % 256 / 16)) with
  | error e => rfl
  | ok response =>
    dsimp only
    cases decode_empty (make_set_lap_high_request (lap % 256 / 16)) response with
    | none => rfl
    | some u =>
      dsimp only
      cases backend (make_set_lap_low_request (lap % 256 % 16)) with
      | error e2 => rfl
      | ok response2 =>
        dsimp only
        cases decode_empty (make_set_lap_low_request (lap % 256 % 16)) response2 with
        | none => rfl
        | some u2 => rfl

end Carrlink
